import Mathlib

/-!
Verification of the hncli website UI composition layer.

Shallow embedding of:
- src/website/src/lib/Button.svelte (variant style resolver)
- src/website/src/lib/content/ClipboardCommandLines.svelte (command block)
- src/website/src/lib/content/FeatureCard.svelte (card content composition)
- the writeToClipboard utility (best-effort clipboard write)

Svelte template conditionals test JavaScript truthiness, so an optional
string prop is modelled as Option String and its truthiness as
"present and non-empty".
-/

namespace HncliWebsite

/-- JavaScript truthiness of a possibly-undefined string: undefined and the
empty string are falsy, every other string is truthy. -/
def truthyString : Option String → Bool
  | some s => decide (s ≠ "")
  | none => false

/-! ## Button.svelte -/

/-- Source: type ButtonVariant = "solid" | "outline". -/
inductive ButtonVariant where
  | solid
  | outline
deriving DecidableEq, Repr

/-- Source: type ButtonColor = "red" | "white" | "gray". -/
inductive ButtonColor where
  | red
  | white
  | gray
deriving DecidableEq, Repr

/-- Source: the baseStyles record, Button.svelte lines 5-10. -/
def baseStyles : ButtonVariant → String
  | .solid =>
    "inline-flex justify-center rounded-lg py-2 px-3 text-sm font-semibold outline-2 outline-offset-2 transition-colors"
  | .outline =>
    "inline-flex justify-center rounded-lg border py-[calc(theme(spacing.2)-1px)] px-[calc(theme(spacing.3)-1px)] text-sm outline-2 outline-offset-2 transition-colors"

/-- Source: the variantStyles record, Button.svelte lines 11-22. The outline
row is populated only for gray; outline red and outline white are empty. -/
def variantStyles : ButtonVariant → ButtonColor → String
  | .solid, .red =>
    "relative overflow-hidden bg-hncli-dark-red text-white before:absolute before:inset-0 active:before:bg-transparent hover:before:bg-white/10 active:bg-hncli-dark-red active:text-white/80 before:transition-colors"
  | .solid, .white =>
    "bg-white text-cyan-900 hover:bg-white/90 active:bg-white/90 active:text-cyan-900/70"
  | .solid, .gray =>
    "bg-gray-800 text-white hover:bg-gray-900 active:bg-gray-800 active:text-white/80"
  | .outline, .red => ""
  | .outline, .white => ""
  | .outline, .gray =>
    "border-gray-300 text-gray-700 hover:border-gray-400 active:bg-gray-100 active:text-gray-700/80"

/-- Source: Button.svelte line 30. An outline variant forces gray; a missing
color defaults to gray. The color prop is optional, hence Option. -/
def buttonColor (variant : ButtonVariant) (color : Option ButtonColor) : ButtonColor :=
  if variant = ButtonVariant.outline then ButtonColor.gray else color.getD ButtonColor.gray

/-- Source: Button.svelte line 31, the template-string concatenation of the
base style, the color overlay for the effective color, and extraClass,
each pair separated by one space. -/
def buttonClass (variant : ButtonVariant) (color : Option ButtonColor)
    (extraClass : String) : String :=
  baseStyles variant ++ " " ++ variantStyles variant (buttonColor variant color)
    ++ " " ++ extraClass

/-- Source: Button.svelte lines 34-47, the template branch on href. A truthy
href renders an anchor element, anything else a button element. -/
def renderAs (href : Option String) : String :=
  if truthyString href then "anchor" else "button"

/-! ## ClipboardCommandLines.svelte -/

/-- Source: ClipboardCommandLines.svelte line 12, lines joined by newline. -/
def content (lines : List String) : String :=
  String.intercalate "\n" lines

/-- Source: ClipboardCommandLines.svelte line 14. The value the onCopy
closure passes to writeToClipboard is the index-0 element of lines; for an
empty list the JavaScript index read yields undefined, modelled as none. -/
def copyPayload (lines : List String) : Option String :=
  lines.get? 0

/-- The derived outputs of one ClipboardCommandLines instantiation. -/
structure ClipboardCommandLinesOutput where
  displayText : String
  copyPayload : Option String
deriving DecidableEq, Repr

/-- Constructing the component from its lines prop: both derived values are
total functions of the prop; no validation happens anywhere in the source. -/
def clipboardCommandLines (lines : List String) : ClipboardCommandLinesOutput :=
  { displayText := content lines, copyPayload := copyPayload lines }

/-! ## FeatureCard.svelte -/

/-- Source: FeatureCard.svelte lines 28-35, the four-element array joined by
single spaces: extraClass (defaulted to empty when absent), the row token
chosen by the small flag, then the two fixed structural token groups. -/
def containerClass (extraClass : Option String) (small : Bool) : String :=
  String.intercalate " "
    [extraClass.getD "",
     if small then "grid-rows-1" else "lg:grid-rows-2",
     "group relative flex flex-col overflow-hidden rounded-lg",
     "bg-white shadow-xs ring-1 ring-black/5"]

/-- What the description paragraph of a FeatureCard renders: a literal text,
a caller-supplied fragment, or nothing. -/
inductive RenderedBody (α : Type) where
  | literal (text : String)
  | fragment (f : α)
  | empty

/-- Source: FeatureCard.svelte line 59, description?.() renders the optional
fragment when present and nothing otherwise. -/
def fallbackBody {α : Type} : Option α → RenderedBody α
  | some f => RenderedBody.fragment f
  | none => RenderedBody.empty

/-- Source: FeatureCard.svelte lines 55-61, the template branch on
textDescription: a truthy (non-empty) textDescription renders literally,
otherwise the fragment fallback is rendered. The fragment type is abstract. -/
def renderedBody {α : Type} (textDescription : Option String)
    (description : Option α) : RenderedBody α :=
  if truthyString textDescription then
    RenderedBody.literal (textDescription.getD "")
  else fallbackBody description

/-! ## writeToClipboard (website utils) -/

/-- The failure modes of the platform clipboard primitive. -/
inductive ClipboardError where
  | permissionDenied
  | unsupportedEnvironment
  | noDocumentFocus
deriving DecidableEq, Repr

/-- The observable outcome of one writeToClipboard call: what propagates to
the caller, and what was logged. -/
structure CopyOutcome where
  result : Except ClipboardError Unit
  logged : Option ClipboardError

/-- Source: the writeToClipboard utility. The whole body sits inside a
try/catch whose handler only logs, so the error branch still completes
normally; the platform primitive is a parameter of the embedding. -/
def writeToClipboard (clipboardWriteText : String → Except ClipboardError Unit)
    (text : String) : CopyOutcome :=
  match clipboardWriteText text with
  | Except.ok _ => { result := Except.ok (), logged := none }
  | Except.error err => { result := Except.ok (), logged := some err }

/-! ## Helper lemmas about joining -/

/-- The tail contribution of a separator join: one separator before each
remaining element. -/
def sepJoin (s : String) : List String → String
  | [] => ""
  | a :: as => s ++ a ++ sepJoin s as

theorem intercalate_go_spec (s : String) : ∀ (as : List String) (acc : String),
    String.intercalate.go acc s as = acc ++ sepJoin s as := by
  intro as
  induction as with
  | nil =>
    intro acc
    simp [String.intercalate.go, sepJoin]
  | cons a as ih =>
    intro acc
    rw [show String.intercalate.go acc s (a :: as)
        = String.intercalate.go (acc ++ s ++ a) s as from rfl]
    rw [ih]
    simp [sepJoin, String.append_assoc]

theorem content_cons (a : String) (as : List String) :
    content (a :: as) = a ++ sepJoin "\n" as :=
  intercalate_go_spec "\n" as a

/-! ## Claim theorems -/

/-- C1 counterexample: the claim that resolving an Outline button with a
non-Gray color raises a ConfigurationError and produces no style output is
false. At variant outline with color red the resolver produces a style
class: the outline base followed by the outline gray overlay and the caller
extra class, and that output is not empty. No error path exists in the
resolver. -/
theorem c1_counterexample :
    buttonClass ButtonVariant.outline (some ButtonColor.red) "extra"
      = baseStyles ButtonVariant.outline ++ " "
        ++ variantStyles ButtonVariant.outline ButtonColor.gray ++ " " ++ "extra"
    ∧ buttonClass ButtonVariant.outline (some ButtonColor.red) "extra" ≠ "" :=
  ⟨rfl, by decide⟩

/-- C1 amended: for variant Outline with any color, including Red, the
resolver raises no error; it silently coerces the effective color to gray
and produces the Outline base style followed by the outline gray overlay
and the caller extra tokens. -/
theorem c1_amended (color : Option ButtonColor) (extraClass : String) :
    buttonClass ButtonVariant.outline color extraClass
      = baseStyles ButtonVariant.outline ++ " "
        ++ variantStyles ButtonVariant.outline ButtonColor.gray ++ " " ++ extraClass := rfl

/-- C2 counterexample: the claim that an empty line sequence raises a
ConfigurationError at construction is false. Constructing the component
from the empty list succeeds and yields the empty display text with an
absent copy payload; no validation exists in the source. -/
theorem c2_counterexample :
    clipboardCommandLines [] = { displayText := "", copyPayload := none } := rfl

/-- C2 amended: constructing a CommandBlock with an empty line sequence
raises no error: displayText is the empty string and the copy payload
passed to the clipboard write is undefined (absent). -/
theorem c2_amended :
    (clipboardCommandLines []).displayText = ""
    ∧ (clipboardCommandLines []).copyPayload = none :=
  ⟨rfl, rfl⟩

/-- C3: whenever a non-empty literal textDescription is supplied, the card
body renders that literal and ignores any supplied fragment; conversely a
fragment is rendered only when no non-empty literal is present. -/
theorem c3_literal_precedence {α : Type} (s : String) (h : s ≠ "")
    (description : Option α) :
    renderedBody (some s) description = RenderedBody.literal s
    ∧ ∀ (td : Option String) (d : Option α) (f : α),
        renderedBody td d = RenderedBody.fragment f → td = none ∨ td = some "" := by
  constructor
  · simp [renderedBody, truthyString, h]
  · intro td d f hf
    cases td with
    | none => exact Or.inl rfl
    | some t =>
      by_cases ht : t = ""
      · exact Or.inr (by rw [ht])
      · exact absurd hf (by simp [renderedBody, truthyString, ht])

/-- C3 witness: a concrete non-empty literal body wins over a supplied
fragment. -/
theorem c3_witness :
    renderedBody (some "No Hacker News account required") (some (0 : Nat))
      = RenderedBody.literal "No Hacker News account required" :=
  (c3_literal_precedence "No Hacker News account required" (by decide) (some 0)).1

/-- C4: the FeatureCard container class is the space join of the caller
extra tokens first, then the row-layout token chosen by the compact (small)
flag, then the fixed structural tokens last: the opposite ordering to the
Button resolver. -/
theorem c4_containerClass_order (extraClass : String) (small : Bool) :
    containerClass (some extraClass) small
      = extraClass ++ " " ++ (if small then "grid-rows-1" else "lg:grid-rows-2")
        ++ " " ++ "group relative flex flex-col overflow-hidden rounded-lg"
        ++ " " ++ "bg-white shadow-xs ring-1 ring-black/5" := by
  cases small <;> rfl

/-- C5: for every valid button configuration (outline only admits gray) the
resolved class is exactly the base entry for the variant, then the overlay
entry for the supplied color, then the caller extra tokens, in that order,
separated by single spaces, so caller tokens come last. -/
theorem c5_buttonClass_tokens (variant : ButtonVariant) (color : ButtonColor)
    (extraClass : String)
    (h : variant = ButtonVariant.outline → color = ButtonColor.gray) :
    buttonClass variant (some color) extraClass
      = baseStyles variant ++ " " ++ variantStyles variant color ++ " " ++ extraClass := by
  cases variant with
  | solid => rfl
  | outline =>
    rw [h rfl]
    rfl

/-- C5 witness: a concrete valid solid red configuration resolves to base,
overlay, extra in order. -/
theorem c5_witness :
    buttonClass ButtonVariant.solid (some ButtonColor.red) "copy-button"
      = baseStyles ButtonVariant.solid ++ " "
        ++ variantStyles ButtonVariant.solid ButtonColor.red ++ " " ++ "copy-button" :=
  c5_buttonClass_tokens ButtonVariant.solid ButtonColor.red "copy-button"
    (fun h => ButtonVariant.noConfusion h)

/-- C6 counterexample: the claim that renderAs is anchor exactly when the
action kind is Link is false: a Link configuration whose href is the empty
string (href supplied, so its action kind is Link) renders a button, because
the template tests JavaScript truthiness and the empty string is falsy. -/
theorem c6_counterexample :
    renderAs (some "") = "button" ∧ renderAs (some "") ≠ "anchor" :=
  ⟨rfl, by decide⟩

/-- C6 amended: renderAs is anchor exactly when an href is supplied and
non-empty; an Action configuration (no href) and a Link with empty href
both render a button element. -/
theorem c6_amended (href : Option String) :
    renderAs href = "anchor" ↔ ∃ s, href = some s ∧ s ≠ "" := by
  cases href with
  | none => simp [renderAs, truthyString]
  | some s =>
    by_cases h : s = ""
    · subst h
      simp [renderAs, truthyString]
    · simp [renderAs, truthyString, h]

/-- C6 witness: a concrete external link resolves to an anchor. -/
theorem c6_witness : renderAs (some "https://x") = "anchor" :=
  (c6_amended (some "https://x")).mpr ⟨"https://x", rfl, by decide⟩

/-- C7: for every non-empty command block, the display text is the lines
newline-joined in original order (head first, then a newline before the
joined tail), and the payload handed to the clipboard write is exactly the
first line. -/
theorem c7_display_and_copy (l : String) (ls : List String) :
    content (l :: ls) = l ++ (if ls = [] then "" else "\n" ++ content ls)
    ∧ copyPayload (l :: ls) = some l := by
  constructor
  · cases ls with
    | nil => simp [content_cons, sepJoin]
    | cons b bs =>
      simp [content_cons, sepJoin, String.append_assoc]
  · rfl

/-- C8: every failure of the platform clipboard primitive is swallowed by
the try/catch in writeToClipboard: the call always completes normally, and
a failing write is recorded in the log rather than propagated. -/
theorem c8_clipboard_errors_swallowed
    (clipboardWriteText : String → Except ClipboardError Unit) (text : String) :
    (writeToClipboard clipboardWriteText text).result = Except.ok ()
    ∧ ∀ e, clipboardWriteText text = Except.error e →
        (writeToClipboard clipboardWriteText text).logged = some e := by
  constructor
  · cases h : clipboardWriteText text <;> simp [writeToClipboard, h]
  · intro e he
    simp [writeToClipboard, he]

/-- C8 witness: with a primitive that always reports permission denied, the
wrapped write still completes normally and logs that error. -/
theorem c8_witness :
    (writeToClipboard (fun _ => Except.error ClipboardError.permissionDenied)
        "docker build -t hncli .  && docker run -it hncli").result = Except.ok ()
    ∧ (writeToClipboard (fun _ => Except.error ClipboardError.permissionDenied)
        "docker build -t hncli .  && docker run -it hncli").logged
      = some ClipboardError.permissionDenied :=
  ⟨(c8_clipboard_errors_swallowed _ _).1,
   (c8_clipboard_errors_swallowed _ _).2 ClipboardError.permissionDenied rfl⟩

/-- C9: for every outline button the effective color is coerced to gray no
matter which color is supplied, and the outline gray overlay entry is the
one used; a solid button with no supplied color also defaults to gray.
Color resolution is a total function, so it never raises. -/
theorem c9_outline_coercion (color : Option ButtonColor) :
    buttonColor ButtonVariant.outline color = ButtonColor.gray
    ∧ buttonColor ButtonVariant.solid none = ButtonColor.gray
    ∧ variantStyles ButtonVariant.outline (buttonColor ButtonVariant.outline color)
      = variantStyles ButtonVariant.outline ButtonColor.gray :=
  ⟨rfl, rfl, rfl⟩

end HncliWebsite
